import Mathlib

/-!
Verification of `sphinx_add_texinfo.py` (EchoAbstract/sphinx-add-texinfo).

The script is pure text processing plus a handful of filesystem effects.
Text (file lines, templates, tokens) is embedded as `List Char`; Python
dictionaries as association lists over `String` keys and a `PyVal` value
type covering the value shapes the program consumes; fallible steps return
`Except PyErr`; the filesystem effects of the orchestrator are threaded
through an explicit state record `FS`.
-/

set_option autoImplicit false

namespace SphinxAddTexinfo

/-- Shorthand turning a Lean string literal into the `List Char` text model. -/
def chars (s : String) : List Char :=
  s.toList

/-- Whether `pat` occurs at the very start of `l` (helper for Python's
substring operator `pat in l`). -/
def hasPre : List Char → List Char → Bool
  | [], _ => true
  | _ :: _, [] => false
  | a :: as, b :: bs => a == b && hasPre as bs

/-- Python's substring containment `pat in l`: `pat` occurs contiguously
somewhere in `l`. -/
def hasSub (pat : List Char) : List Char → Bool
  | [] => hasPre pat []
  | b :: bs => hasPre pat (b :: bs) || hasSub pat bs

/-- Python 2's `\w` word-character class for ASCII text: letters, digits and
the underscore. -/
def isWordChar (c : Char) : Bool :=
  c.isAlphanum || c == '_'

/-- If `w` occurs at the start of `l`, returns the rest of `l` after it. -/
def dropAfter : List Char → List Char → Option (List Char)
  | [], l => some l
  | _ :: _, [] => none
  | a :: as, b :: bs => if a == b then dropAfter as bs else none

/-- Whether `w` occurs at the start of `l` with a word boundary right after
it (end of text, or a non-word character). -/
def wordAt (w l : List Char) : Bool :=
  match dropAfter w l with
  | none => false
  | some [] => true
  | some (c :: _) => !isWordChar c

/-- Word boundary before the current position: start of text (`prev = none`)
or a non-word previous character. -/
def boundaryOk (prev : Option Char) : Bool :=
  match prev with
  | none => true
  | some c => !isWordChar c

/-- Scan of `l` looking for an occurrence of `w` delimited by word
boundaries, with `prev` the character just before the current position. -/
def wordSearchAux (w : List Char) (prev : Option Char) : List Char → Bool
  | [] => boundaryOk prev && wordAt w []
  | c :: cs => (boundaryOk prev && wordAt w (c :: cs)) || wordSearchAux w (some c) cs

/-- Model of Python's `re.search(r'\b<w>\b', l)` for a word `w` made of word
characters (here `_build` and `build`): some occurrence of `w` in `l` is
delimited by word boundaries on both sides. -/
def wordSearch (w l : List Char) : Bool :=
  wordSearchAux w none l

/-- The marker predicate of `modify_makefile_lines` (line 110):
`all(w in l for w in ['@echo', 'latex', 'to make LaTeX files,'])`. -/
def isMarkerLine (l : List Char) : Bool :=
  hasSub (chars "@echo") l && hasSub (chars "latex") l &&
    hasSub (chars "to make LaTeX files,") l

/-- `MAKEFILE_HELP_LINES` (source lines 83-86), the two-line help block
yielded right after the marker line. -/
def MAKEFILE_HELP_LINES : List Char :=
  chars "\t@echo \"  texinfo     to make Texinfo files\"\n\t@echo \"  info        to make Texinfo files and run them through makeinfo\"\n"

/-- `MAKEFILE_TARGETS_TEMPLATE` (source lines 88-103), before the
`{builddir}` placeholder is substituted. -/
def MAKEFILE_TARGETS_TEMPLATE : List Char :=
  chars "\ntexinfo:\n\tmkdir -p {builddir}/texinfo\n\t$(SPHINXBUILD) -b texinfo $(ALLSPHINXOPTS) {builddir}/texinfo\n\t@echo\n\t@echo \"Build finished. The Texinfo files are in {builddir}/texinfo.\"\n\t@echo \"Run \\`make' in that directory to run these through makeinfo\" \\\n\t      \"(use \\`make info' here to do that automatically).\"\n\ninfo:\n\tmkdir -p {builddir}/texinfo\n\t$(SPHINXBUILD) -b texinfo $(ALLSPHINXOPTS) {builddir}/texinfo\n\t@echo \"Running Texinfo files through makeinfo...\"\n\tmake -C {builddir}/texinfo info\n\t@echo \"makeinfo finished; the Info files are in {builddir}/texinfo.\"\n"

/-- Replace every occurrence of `pat` by `repl` in a text, scanning left to
right and never rescanning substituted text. With
`pat = chars "{builddir}"` this is exactly what
`MAKEFILE_TARGETS_TEMPLATE.format(builddir=...)` does, the template
containing no other replacement field and no brace. -/
def replaceAll (pat repl : List Char) : List Char → List Char
  | [] => []
  | c :: cs =>
    if h : pat ≠ [] ∧ hasPre pat (c :: cs) = true then
      repl ++ replaceAll pat repl ((c :: cs).drop pat.length)
    else
      c :: replaceAll pat repl cs
termination_by l => l.length
decreasing_by
  · simp only [List.length_drop, List.length_cons]
    have : pat.length ≠ 0 := fun hn => h.1 (List.eq_nil_of_length_eq_zero hn)
    omega
  · simp

/-- `MAKEFILE_TARGETS_TEMPLATE.format(builddir=builddir)` (line 113). -/
def formatTargets (builddir : List Char) : List Char :=
  replaceAll (chars "{builddir}") builddir MAKEFILE_TARGETS_TEMPLATE

/-- The per-line part of the `modify_makefile_lines` generator (lines
107-112): each line is yielded, and `MAKEFILE_HELP_LINES` is yielded right
after every marker line. -/
def modifyCore : List (List Char) → List (List Char)
  | [] => []
  | l :: ls =>
    if isMarkerLine l then l :: MAKEFILE_HELP_LINES :: modifyCore ls
    else l :: modifyCore ls

/-- Number of marker lines, i.e. the final value of the `n_help_lines`
counter of `modify_makefile_lines`. -/
def countMarkers (lines : List (List Char)) : Nat :=
  (lines.filter isMarkerLine).length

/-- Python exception classes raised by the modelled code paths. -/
inductive PyErr where
  | keyError
  | indexError
  | typeError
  | assertionError
  deriving DecidableEq

/-- `modify_makefile_lines(lines, builddir)` (lines 106-114), fully
consumed: the generator yields every line with `MAKEFILE_HELP_LINES` after
each marker line, then the formatted targets template, and finally runs
`assert n_help_lines == 1`; consuming it to the end therefore produces the
whole list exactly when the marker occurred once, and raises
`AssertionError` otherwise. -/
def modify_makefile_lines (lines : List (List Char)) (builddir : List Char) :
    Except PyErr (List (List Char)) :=
  if countMarkers lines = 1 then
    .ok (modifyCore lines ++ [formatTargets builddir])
  else
    .error .assertionError

/-- `one_of(candidates, predicate)` (lines 52-55): first candidate
satisfying the predicate, `None` when the loop falls through. -/
def one_of {α : Type} (candidates : List α) (predicate : α → Bool) : Option α :=
  match candidates with
  | [] => none
  | c :: cs => if predicate c then some c else one_of cs predicate

/-- `find_sphinx_dir()` (lines 64-65), with `os.path.isdir` abstracted as
the predicate `isdir`. -/
def find_sphinx_dir (isdir : List Char → Bool) : Option (List Char) :=
  one_of [chars "doc", chars "docs"] isdir

/-- The second loop of `get_makefile_builddir` (lines 128-132): scan the
lines in order and return at the first line containing the standalone word
`_build` or, failing that on the same line, the standalone word `build`. -/
def scanBuildWord : List (List Char) → Option (List Char)
  | [] => none
  | l :: ls =>
    if wordSearch (chars "_build") l then some (chars "_build")
    else if wordSearch (chars "build") l then some (chars "build")
    else scanBuildWord ls

/-- `get_makefile_builddir(path, lines)` (lines 117-139). The final
filesystem fallback (lines 134-139: probe `doc/build` then `doc/_build`
with `os.path.isdir` and take the relative path) is abstracted as the
`fsFallback` argument; `fsFallback = none` models the crash of
`os.path.relpath(None, doc)` when neither directory exists. -/
def get_makefile_builddir (lines : List (List Char)) (fsFallback : Option (List Char)) :
    Option (List Char) :=
  if lines.any (fun l => hasSub (chars "$(BUILDDIR)") l) then
    some (chars "$(BUILDDIR)")
  else
    match scanBuildWord lines with
    | some b => some b
    | none => fsFallback

/-- Python values of the shapes this program stores in and reads from its
dictionaries: `None`, strings, ints, bools, lists of strings (author lists)
and lists of tuples of strings (`latex_documents`). -/
inductive PyVal where
  | pynone
  | str (s : List Char)
  | int (n : Int)
  | bool (b : Bool)
  | strlist (l : List (List Char))
  | tuplelist (l : List (List (List Char)))
  deriving DecidableEq

/-- A Python dictionary with string keys, embedded as an association list;
a well-formed dictionary has no duplicate keys. -/
abbrev PyDict : Type :=
  List (String × PyVal)

/-- Dictionary lookup `d[k]` / `d.get(k)`: value of the first entry with
key `k`, `none` when the key is absent. -/
def dictLookup (d : PyDict) (k : String) : Option PyVal :=
  match d with
  | [] => none
  | kv :: rest => if kv.1 = k then some kv.2 else dictLookup rest k

/-- `filter_dict(pred, d)` (lines 58-61): keep the entries satisfying
`pred`, which defaults to `v is not None` when `pred` is `None`. -/
def filter_dict (pred : Option (String → PyVal → Bool)) (d : PyDict) : PyDict :=
  let p : String → PyVal → Bool :=
    match pred with
    | some p => p
    | none => fun _ v => !(v == PyVal.pynone)
  d.filter (fun kv => p kv.1 kv.2)

/-- Python's `d.update(f)` for dictionaries (line 225): entries of `d` keep
their place with the value replaced by `f`'s when `f` has the key, and
entries of `f` whose key is new to `d` are appended. -/
def dictUpdate (d f : PyDict) : PyDict :=
  d.map (fun kv =>
    match dictLookup f kv.1 with
    | some v => (kv.1, v)
    | none => kv)
  ++ f.filter (fun kv => (dictLookup d kv.1).isNone)

/-- Python 2 `repr` of a string of printable ASCII characters: quote with
`'`, or with `"` when the text contains `'` but no `"`; escape the
backslash, the chosen quote, and the tab/newline/carriage-return
characters. -/
def pyReprStr (s : List Char) : List Char :=
  let q : Char := if s.contains '\'' && !(s.contains '"') then '"' else '\''
  let esc : Char → List Char := fun c =>
    if c == '\\' then ['\\', '\\']
    else if c == q then ['\\', q]
    else if c == '\n' then ['\\', 'n']
    else if c == '\t' then ['\\', 't']
    else if c == '\r' then ['\\', 'r']
    else [c]
  q :: ((s.map esc).flatten ++ [q])

/-- Python's `str.lower()` for ASCII text. -/
def pyLower (s : List Char) : List Char :=
  s.map Char.toLower

/-- Python's `x or default` where `x` is an optional string (`none` = the
parameter kept its `None` default): both `None` and the empty string are
falsy and select the default. -/
def pyOrStr (v : Option (List Char)) (default : List Char) : List Char :=
  match v with
  | some s => if s.isEmpty then default else s
  | none => default

/-- The author field of `conf_py_texinfo_documents` (lines 168-171):
`'@*'.join(authors)` when the author list is non-empty, else
`'<project> Development Team'`. -/
def authorField (project_name : List Char) (authors : List (List Char)) : List Char :=
  if authors.isEmpty then project_name ++ chars " Development Team"
  else List.intercalate (chars "@*") authors

/-- `CONF_PY_TEXINFO_DOCUMENTS_TEMPLATE` (lines 142-151), before its eight
replacement fields are substituted. -/
def CONF_PY_TEXINFO_DOCUMENTS_TEMPLATE : List Char :=
  chars "\ntexinfo_documents = [\n  ({startdocname}, '{targetname}', '{title}',\n   '{author}',\n   '{dir_entry}',\n   '{description}',\n   '{category}',\n   {toctree_only}),\n]\n"

/-- `conf_py_texinfo_documents(...)` (lines 154-180). Optional parameters
are passed explicitly here; their Python defaults are `None` (modelled as
`none`), `authors=[]`, `category='Programming'` and `toctree_only=True`.
The result is `CONF_PY_TEXINFO_DOCUMENTS_TEMPLATE.format(...)`, spelled
out as the concatenation of the template's literal pieces with the field
values (Python's `format` substitutes each field once, left to right,
without rescanning substituted text). -/
def conf_py_texinfo_documents
    (project_name startdocname : List Char)
    (targetname title : Option (List Char))
    (authors : List (List Char))
    (dir_entry description : Option (List Char))
    (category : List Char)
    (toctree_only : Bool) : List Char :=
  let targetname := pyOrStr targetname (pyLower project_name)
  let title := pyOrStr title (project_name ++ chars " Documentation")
  let description := pyOrStr description title
  let dir_entry := pyOrStr dir_entry project_name
  let author := authorField project_name authors
  chars "\ntexinfo_documents = [\n  (" ++ startdocname ++
    chars ", '" ++ targetname ++
    chars "', '" ++ title ++
    chars "',\n   '" ++ author ++
    chars "',\n   '" ++ dir_entry ++
    chars "',\n   '" ++ description ++
    chars "',\n   '" ++ category ++
    chars "',\n   " ++ (if toctree_only then chars "1" else chars "0") ++
    chars "),\n]\n"

/-- `params_for_texinfo_documents(conf)` (lines 189-211): `conf['project']`
(a `KeyError` when absent), then the start document name: the literal
string `'master_doc'` when the key `master_doc` is present (whatever its
value), otherwise `repr(conf['latex_documents'][0][0])` with an
`IndexError` on either index caught and replaced by `'index'`. Indexing a
non-list `latex_documents` value is a `TypeError`, which the
`except IndexError` clause does not catch. -/
def params_for_texinfo_documents (conf : PyDict) : Except PyErr PyDict :=
  match dictLookup conf "project" with
  | none => .error .keyError
  | some project =>
    match dictLookup conf "master_doc" with
    | some _ =>
      .ok [("project_name", project), ("startdocname", .str (chars "master_doc"))]
    | none =>
      match dictLookup conf "latex_documents" with
      | none => .error .keyError
      | some (.tuplelist []) =>
        .ok [("project_name", project), ("startdocname", .str (chars "index"))]
      | some (.tuplelist ([] :: _)) =>
        .ok [("project_name", project), ("startdocname", .str (chars "index"))]
      | some (.tuplelist ((s :: _) :: _)) =>
        .ok [("project_name", project), ("startdocname", .str (pyReprStr s))]
      | some _ => .error .typeError

/-- The keyword parameters `conf_py_texinfo_documents` accepts (lines
154-157); a call with any other keyword raises `TypeError`. -/
def KNOWN_KWARGS : List String :=
  ["project_name", "startdocname", "targetname", "title", "authors",
   "dir_entry", "description", "category", "toctree_only"]

/-- Read an optional string-typed keyword from a kwargs dictionary: absent
means the parameter keeps its `None` default, and an explicit `None` value
behaves the same way downstream (both are falsy for the `x or default`
idiom). A value of another shape is rejected (the Python code would fail
on it later, at `.lower()` or string formatting of a non-string). -/
def kwOptStr (params : PyDict) (k : String) : Except PyErr (Option (List Char)) :=
  match dictLookup params k with
  | none => .ok none
  | some .pynone => .ok none
  | some (.str s) => .ok (some s)
  | some _ => .error .typeError

/-- Binding of `conf_py_texinfo_documents(**params)` (line 226): a keyword
outside the parameter list, or a missing or non-string required parameter,
raises `TypeError`; otherwise each optional parameter takes the supplied
value or its Python default (`authors=[]`, `category='Programming'`,
`toctree_only=True`; `int(toctree_only)` keeps an int 0/1 or converts the
bool). -/
def callConfPy (params : PyDict) : Except PyErr (List Char) :=
  if params.any (fun kv => !(KNOWN_KWARGS.contains kv.1)) then
    .error .typeError
  else
    match dictLookup params "project_name", dictLookup params "startdocname" with
    | some (.str project_name), some (.str startdocname) => do
      let targetname ← kwOptStr params "targetname"
      let title ← kwOptStr params "title"
      let authors ←
        match dictLookup params "authors" with
        | none => pure []
        | some .pynone => pure []
        | some (.strlist l) => pure l
        | some _ => Except.error .typeError
      let dir_entry ← kwOptStr params "dir_entry"
      let description ← kwOptStr params "description"
      let category ←
        match dictLookup params "category" with
        | none => pure (chars "Programming")
        | some (.str s) => pure s
        | some _ => Except.error .typeError
      let toctree_only ←
        match dictLookup params "toctree_only" with
        | none => pure true
        | some (.bool b) => pure b
        | some (.int n) => pure (n ≠ 0 : Bool)
        | some _ => Except.error .typeError
      .ok (conf_py_texinfo_documents project_name startdocname targetname title
            authors dir_entry description category toctree_only)
    | _, _ => .error .typeError

/-- The filesystem state the orchestrator reads and writes. The two files
are assumed discovered (the claims about the orchestrator presuppose a
project with both files); `confBindings` is the namespace captured by
`read_sphinx_conf` (lines 183-186, an `execfile`), and `fsFallback` is the
outcome of the directory probe of `get_makefile_builddir`'s fallback
(lines 134-139), `none` when neither candidate build directory exists. -/
structure FS where
  makefile : List (List Char)
  conf_py : List Char
  confBindings : PyDict
  fsFallback : Option (List Char)
  deriving DecidableEq

/-- The parameter dictionary the orchestrator passes to
`conf_py_texinfo_documents` (lines 224-225):
`params.update(filter_dict(None, additional_params))`. -/
def mergedParams (fs : FS) (additional_params : PyDict) :
    Except PyErr PyDict :=
  match params_for_texinfo_documents fs.confBindings with
  | .error e => .error e
  | .ok params => .ok (dictUpdate params (filter_dict none additional_params))

/-- `sphinx_add_texinfo(**additional_params)` (lines 214-231), as a state
transformer: the returned state is the filesystem after the run and the
second component is the uncaught exception, if any. The steps follow the
source order: resolve the build directory (line 219), fully consume
`modify_makefile_lines` (line 220, `list(...)`), derive and merge the
parameters and render the configuration block (lines 224-226), and only
then perform the two writes (lines 228-231): the Makefile is overwritten
with the patched lines and the rendered block is appended to `conf.py`. -/
def sphinx_add_texinfo (fs : FS) (additional_params : PyDict) : FS × Option PyErr :=
  match get_makefile_builddir fs.makefile fs.fsFallback with
  | none => (fs, some .typeError)
  | some builddir =>
    match modify_makefile_lines fs.makefile builddir with
    | .error e => (fs, some e)
    | .ok makefile_lines =>
      match mergedParams fs additional_params with
      | .error e => (fs, some e)
      | .ok params =>
        match callConfPy params with
        | .error e => (fs, some e)
        | .ok conf_addition =>
          ({ fs with
              makefile := makefile_lines
              conf_py := fs.conf_py ++ conf_addition }, none)

/-- A minimal well-formed project state: a Makefile with one marker line
and a `BUILDDIR` assignment, and a configuration mapping defining
`project` and `master_doc`. -/
def sampleProject : FS where
  makefile := [chars "\t@echo \"  latex       to make LaTeX files, run make there\"",
               chars "BUILDDIR      = _build"]
  conf_py := chars "# conf.py\n"
  confBindings := [("project", PyVal.str (chars "Demo")),
                   ("master_doc", PyVal.str (chars "contents"))]
  fsFallback := none

/-! Helper lemmas. -/

theorem countMarkers_nil : countMarkers [] = 0 := rfl

theorem countMarkers_eq_zero (L : List (List Char))
    (h : ∀ l ∈ L, isMarkerLine l = false) : countMarkers L = 0 := by
  induction L with
  | nil => rfl
  | cons a as ih =>
    simp only [countMarkers, List.filter_cons, h a (List.mem_cons_self a as)]
    exact ih (fun l hl => h l (List.mem_cons_of_mem a hl))

theorem countMarkers_append (A B : List (List Char)) :
    countMarkers (A ++ B) = countMarkers A + countMarkers B := by
  simp [countMarkers, List.filter_append]

theorem modifyCore_append_no_marker (pre rest : List (List Char))
    (h : ∀ l ∈ pre, isMarkerLine l = false) :
    modifyCore (pre ++ rest) = pre ++ modifyCore rest := by
  induction pre with
  | nil => simp
  | cons a as ih =>
    simp only [List.cons_append, modifyCore, h a (List.mem_cons_self a as),
      Bool.false_eq_true, if_false, List.cons.injEq, true_and]
    exact ih (fun l hl => h l (List.mem_cons_of_mem a hl))

theorem modifyCore_no_marker (L : List (List Char))
    (h : ∀ l ∈ L, isMarkerLine l = false) : modifyCore L = L := by
  have := modifyCore_append_no_marker L [] h
  simpa [modifyCore] using this

/-- C1: for a line list made of a marker line `m` surrounded by non-marker
lines, `modify_makefile_lines` succeeds and returns all original lines in
order, with `MAKEFILE_HELP_LINES` inserted immediately after the marker
line and the targets template — its `{builddir}` placeholder replaced
verbatim by the given token — appended as the final element. -/
theorem modify_makefile_lines_single_marker
    (pre post : List (List Char)) (m builddir : List Char)
    (hpre : ∀ l ∈ pre, isMarkerLine l = false)
    (hm : isMarkerLine m = true)
    (hpost : ∀ l ∈ post, isMarkerLine l = false) :
    modify_makefile_lines (pre ++ m :: post) builddir =
      .ok (pre ++ m :: MAKEFILE_HELP_LINES :: (post ++ [formatTargets builddir])) := by
  have hc : countMarkers (pre ++ m :: post) = 1 := by
    have h1 : countMarkers (m :: post) = 1 := by
      simp only [countMarkers, List.filter_cons, hm, if_pos]
      have := countMarkers_eq_zero post hpost
      simp only [countMarkers] at this
      simp [this]
    rw [countMarkers_append, countMarkers_eq_zero pre hpre, h1]
  unfold modify_makefile_lines
  rw [if_pos hc]
  rw [modifyCore_append_no_marker pre (m :: post) hpre]
  have h2 : modifyCore (m :: post) = m :: MAKEFILE_HELP_LINES :: post := by
    simp only [modifyCore, hm, if_pos]
    rw [modifyCore_no_marker post hpost]
  rw [h2]
  simp

/-- Closed instance of `modify_makefile_lines_single_marker` on a concrete
three-line Makefile. -/
theorem modify_makefile_lines_single_marker_witness :
    modify_makefile_lines
        [chars "latexpdf:", chars "\t@echo \"  latex       to make LaTeX files, run make in that dir\"", chars "clean:"]
        (chars "_build") =
      .ok [chars "latexpdf:",
           chars "\t@echo \"  latex       to make LaTeX files, run make in that dir\"",
           MAKEFILE_HELP_LINES,
           chars "clean:",
           formatTargets (chars "_build")] :=
  modify_makefile_lines_single_marker
    [chars "latexpdf:"]
    [chars "clean:"]
    (chars "\t@echo \"  latex       to make LaTeX files, run make in that dir\"")
    (chars "_build")
    (by decide) (by decide) (by decide)

/-- C2: when the marker line occurs zero times or more than once, fully
consuming `modify_makefile_lines` raises `AssertionError`, and the
orchestrator — which consumes it with `list(...)` before either file
write — leaves the filesystem state unchanged and terminates with an
uncaught exception. -/
theorem modify_makefile_lines_marker_count_error :
    (∀ (lines : List (List Char)) (builddir : List Char),
        countMarkers lines ≠ 1 →
        modify_makefile_lines lines builddir = .error .assertionError)
    ∧ (∀ (fs : FS) (additional_params : PyDict),
        countMarkers fs.makefile ≠ 1 →
        (sphinx_add_texinfo fs additional_params).1 = fs ∧
          ((sphinx_add_texinfo fs additional_params).2).isSome = true) := by
  have hmod : ∀ (lines : List (List Char)) (builddir : List Char),
      countMarkers lines ≠ 1 →
      modify_makefile_lines lines builddir = .error .assertionError := by
    intro lines builddir h
    unfold modify_makefile_lines
    rw [if_neg h]
  refine ⟨hmod, ?_⟩
  intro fs add h
  unfold sphinx_add_texinfo
  cases hb : get_makefile_builddir fs.makefile fs.fsFallback with
  | none => exact ⟨rfl, rfl⟩
  | some builddir =>
    dsimp only
    rw [hmod fs.makefile builddir h]
    exact ⟨rfl, rfl⟩

/-- Closed instance of `modify_makefile_lines_marker_count_error`: a
marker-free Makefile makes the patcher fail and the orchestrator leave the
state unchanged. -/
theorem modify_makefile_lines_marker_count_error_witness :
    modify_makefile_lines [chars "clean:"] (chars "_build") = .error .assertionError ∧
      (sphinx_add_texinfo ⟨[chars "clean:"], chars "# conf", [], none⟩ []).1 =
        ⟨[chars "clean:"], chars "# conf", [], none⟩ ∧
      ((sphinx_add_texinfo ⟨[chars "clean:"], chars "# conf", [], none⟩ []).2).isSome = true := by
  refine ⟨modify_makefile_lines_marker_count_error.1 [chars "clean:"] (chars "_build") (by decide),
    modify_makefile_lines_marker_count_error.2 ⟨[chars "clean:"], chars "# conf", [], none⟩ [] (by decide)⟩

theorem any_hasSub_false (lines : List (List Char)) (pat : List Char)
    (h : ∀ l ∈ lines, hasSub pat l = false) :
    (lines.any (fun l => hasSub pat l)) = false := by
  induction lines with
  | nil => rfl
  | cons a as ih =>
    simp only [List.any_cons, h a (List.mem_cons_self a as), Bool.false_or]
    exact ih (fun l hl => h l (List.mem_cons_of_mem a hl))

/-- C3 (amended): with no `$(BUILDDIR)` line, the word scan is per-line in
order with `_build` tried before `build` within each line; so when no
earlier line contains either standalone word and some line contains the
standalone word `_build`, the result is `_build`. -/
theorem get_makefile_builddir_underscore_build
    (pre post : List (List Char)) (l : List Char) (fsFallback : Option (List Char))
    (hb : ∀ x ∈ pre ++ l :: post, hasSub (chars "$(BUILDDIR)") x = false)
    (hpre : ∀ x ∈ pre, wordSearch (chars "_build") x = false ∧
      wordSearch (chars "build") x = false)
    (hl : wordSearch (chars "_build") l = true) :
    get_makefile_builddir (pre ++ l :: post) fsFallback = some (chars "_build") := by
  unfold get_makefile_builddir
  rw [any_hasSub_false _ _ hb]
  simp only [Bool.false_eq_true, if_false]
  have hscan : scanBuildWord (pre ++ l :: post) = some (chars "_build") := by
    induction pre with
    | nil =>
      simp only [List.nil_append, scanBuildWord, hl, if_pos]
    | cons a as ih =>
      have ha := hpre a (List.mem_cons_self a as)
      simp only [List.cons_append, scanBuildWord, ha.1, ha.2, Bool.false_eq_true, if_false]
      exact ih (fun x hx => hb x (by simp_all [List.mem_append]))
        (fun x hx => hpre x (List.mem_cons_of_mem a hx))
  rw [hscan]

/-- Closed instance of `get_makefile_builddir_underscore_build`. -/
theorem get_makefile_builddir_underscore_build_witness :
    get_makefile_builddir [chars "SPHINXOPTS =", chars "rm -rf _build/*"] none =
      some (chars "_build") :=
  get_makefile_builddir_underscore_build
    [chars "SPHINXOPTS ="] [] (chars "rm -rf _build/*") none
    (by decide) (by decide) (by decide)

/-- C3 fails as stated on the code: these lines contain no `$(BUILDDIR)`
and one line contains the standalone word `_build`, yet because an earlier
line contains the standalone word `build`, `get_makefile_builddir` returns
`build` rather than `_build` — the scan is per-line, not a full pass for
`_build` followed by a pass for `build`. -/
theorem get_makefile_builddir_build_shadows_underscore :
    (∀ x ∈ [chars "mkdir build", chars "rm -r _build"],
        hasSub (chars "$(BUILDDIR)") x = false)
    ∧ wordSearch (chars "_build") (chars "rm -r _build") = true
    ∧ get_makefile_builddir [chars "mkdir build", chars "rm -r _build"] none =
        some (chars "build")
    ∧ get_makefile_builddir [chars "mkdir build", chars "rm -r _build"] none ≠
        some (chars "_build") := by
  decide

/-- C4: any line containing the substring `$(BUILDDIR)` makes
`get_makefile_builddir` return `$(BUILDDIR)`, whatever the other lines
hold: the first loop scans every line for that substring before the word
heuristics or the filesystem fallback are consulted. -/
theorem get_makefile_builddir_BUILDDIR
    (lines : List (List Char)) (fsFallback : Option (List Char)) (l : List Char)
    (hl : l ∈ lines) (h : hasSub (chars "$(BUILDDIR)") l = true) :
    get_makefile_builddir lines fsFallback = some (chars "$(BUILDDIR)") := by
  unfold get_makefile_builddir
  have : (lines.any (fun l => hasSub (chars "$(BUILDDIR)") l)) = true :=
    List.any_eq_true.mpr ⟨l, hl, h⟩
  rw [this]
  simp

/-- Closed instance of `get_makefile_builddir_BUILDDIR`: the variable
reference wins even when standalone `_build` appears first. -/
theorem get_makefile_builddir_BUILDDIR_witness :
    get_makefile_builddir
        [chars "clean _build now", chars "\trm -rf $(BUILDDIR)/*"] none =
      some (chars "$(BUILDDIR)") :=
  get_makefile_builddir_BUILDDIR
    [chars "clean _build now", chars "\trm -rf $(BUILDDIR)/*"] none
    (chars "\trm -rf $(BUILDDIR)/*")
    (by decide) (by decide)

/-- C5: with only a project name and start document supplied (all optional
parameters at their Python defaults), the rendered block lower-cases the
project name into the target name, titles it `Foo Documentation`, repeats
the (defaulted) title as description, uses the project name as directory
entry, defaults the author to `Foo Development Team` and the category to
`Programming`, and renders the toctree-only flag as the integer `1`; and a
non-empty author list is joined with the separator `@*`, as in
`Alice@*Bob`. -/
theorem conf_py_texinfo_documents_defaults :
    conf_py_texinfo_documents (chars "Foo") (chars "index")
        none none [] none none (chars "Programming") true =
      chars "\ntexinfo_documents = [\n  (index, 'foo', 'Foo Documentation',\n   'Foo Development Team',\n   'Foo',\n   'Foo Documentation',\n   'Programming',\n   1),\n]\n"
    ∧ conf_py_texinfo_documents (chars "Foo") (chars "index")
        none none [chars "Alice", chars "Bob"] none none (chars "Programming") true =
      chars "\ntexinfo_documents = [\n  (index, 'foo', 'Foo Documentation',\n   'Alice@*Bob',\n   'Foo',\n   'Foo Documentation',\n   'Programming',\n   1),\n]\n"
    ∧ (∀ (project_name a : List Char) (as : List (List Char)),
        authorField project_name (a :: as) = List.intercalate (chars "@*") (a :: as)) := by
  refine ⟨by decide, by decide, ?_⟩
  intro project_name a as
  simp [authorField]

/-- Closed instance of the author-join part of
`conf_py_texinfo_documents_defaults`. -/
theorem conf_py_texinfo_documents_defaults_witness :
    authorField (chars "Foo") [chars "Alice", chars "Bob"] =
      List.intercalate (chars "@*") [chars "Alice", chars "Bob"] :=
  conf_py_texinfo_documents_defaults.2.2 (chars "Foo") (chars "Alice") [chars "Bob"]

/-- C6: `params_for_texinfo_documents` takes the project name from the
mapping's `project` key, a `KeyError` when it is absent; the start
document is the fixed literal `master_doc` when that key is present,
otherwise the repr-quoted first element of the first `latex_documents`
entry, or the literal `index` when that list is empty. -/
theorem params_for_texinfo_documents_spec (conf : PyDict) :
    (dictLookup conf "project" = none →
      params_for_texinfo_documents conf = .error .keyError)
    ∧ (∀ p, dictLookup conf "project" = some p →
        (dictLookup conf "master_doc").isSome = true →
        params_for_texinfo_documents conf =
          .ok [("project_name", p), ("startdocname", PyVal.str (chars "master_doc"))])
    ∧ (∀ p s t rest, dictLookup conf "project" = some p →
        dictLookup conf "master_doc" = none →
        dictLookup conf "latex_documents" = some (.tuplelist ((s :: t) :: rest)) →
        params_for_texinfo_documents conf =
          .ok [("project_name", p), ("startdocname", PyVal.str (pyReprStr s))])
    ∧ (∀ p, dictLookup conf "project" = some p →
        dictLookup conf "master_doc" = none →
        dictLookup conf "latex_documents" = some (.tuplelist []) →
        params_for_texinfo_documents conf =
          .ok [("project_name", p), ("startdocname", PyVal.str (chars "index"))]) := by
  refine ⟨?_, ?_, ?_, ?_⟩
  · intro h
    unfold params_for_texinfo_documents
    rw [h]
  · intro p hp hm
    obtain ⟨v, hv⟩ := Option.isSome_iff_exists.mp hm
    unfold params_for_texinfo_documents
    rw [hp, hv]
  · intro p s t rest hp hm hl
    unfold params_for_texinfo_documents
    rw [hp, hm, hl]
  · intro p hp hm hl
    unfold params_for_texinfo_documents
    rw [hp, hm, hl]

/-- Closed instances of `params_for_texinfo_documents_spec`: the
`master_doc` case, the repr-quoted `latex_documents` case and the
empty-list fallback, each on a concrete mapping. -/
theorem params_for_texinfo_documents_spec_witness :
    params_for_texinfo_documents
        [("project", PyVal.str (chars "Demo")), ("master_doc", PyVal.str (chars "contents"))] =
      .ok [("project_name", PyVal.str (chars "Demo")),
           ("startdocname", PyVal.str (chars "master_doc"))]
    ∧ params_for_texinfo_documents
        [("project", PyVal.str (chars "Demo")),
         ("latex_documents", PyVal.tuplelist [[chars "contents", chars "demo.tex"]])] =
      .ok [("project_name", PyVal.str (chars "Demo")),
           ("startdocname", PyVal.str (pyReprStr (chars "contents")))]
    ∧ params_for_texinfo_documents
        [("project", PyVal.str (chars "Demo")), ("latex_documents", PyVal.tuplelist [])] =
      .ok [("project_name", PyVal.str (chars "Demo")),
           ("startdocname", PyVal.str (chars "index"))] := by
  refine ⟨(params_for_texinfo_documents_spec _).2.1 _ (by decide) (by decide),
    (params_for_texinfo_documents_spec _).2.2.1 (PyVal.str (chars "Demo"))
      (chars "contents") [chars "demo.tex"] [] (by decide) (by decide) (by decide),
    (params_for_texinfo_documents_spec _).2.2.2 _ (by decide) (by decide) (by decide)⟩

theorem dictLookup_append (a b : PyDict) (k : String) :
    dictLookup (a ++ b) k =
      match dictLookup a k with
      | some v => some v
      | none => dictLookup b k := by
  induction a with
  | nil => simp [dictLookup]
  | cons kv rest ih =>
    simp only [List.cons_append, dictLookup]
    by_cases h : kv.1 = k
    · simp [h]
    · simp [h, ih]

theorem dictLookup_updateMap (d f : PyDict) (k : String) :
    dictLookup (d.map (fun kv =>
      match dictLookup f kv.1 with
      | some v => (kv.1, v)
      | none => kv)) k =
      match dictLookup d k with
      | some v => some ((dictLookup f k).getD v)
      | none => none := by
  induction d with
  | nil => rfl
  | cons kv rest ih =>
    simp only [List.map_cons]
    cases hf : dictLookup f kv.1 with
    | none =>
      by_cases hk : kv.1 = k
      · subst hk
        simp [dictLookup, hf]
      · simp [dictLookup, hk, ih]
    | some v =>
      by_cases hk : kv.1 = k
      · subst hk
        simp [dictLookup, hf]
      · simp [dictLookup, hk, ih]

theorem dictLookup_filterKey (f : PyDict) (q : String → Bool) (k : String) :
    dictLookup (f.filter (fun kv => q kv.1)) k =
      if q k then dictLookup f k else none := by
  induction f with
  | nil => simp [dictLookup]
  | cons kv rest ih =>
    simp only [List.filter_cons]
    by_cases hq : q kv.1
    · by_cases hk : kv.1 = k
      · subst hk
        simp [hq, dictLookup]
      · simp [hq, dictLookup, hk, ih]
    · by_cases hk : kv.1 = k
      · subst hk
        simp only [hq, Bool.false_eq_true, if_false, ih]
      · simp only [hq, Bool.false_eq_true, if_false, ih, dictLookup, hk]

theorem dictLookup_dictUpdate (d f : PyDict) (k : String) :
    dictLookup (dictUpdate d f) k =
      match dictLookup f k with
      | some v => some v
      | none => dictLookup d k := by
  unfold dictUpdate
  rw [dictLookup_append, dictLookup_updateMap,
    dictLookup_filterKey f (fun s => (dictLookup d s).isNone) k]
  cases hd : dictLookup d k with
  | none => cases hf : dictLookup f k <;> simp [hd, hf]
  | some v => cases hf : dictLookup f k <;> simp [hd, hf]

theorem dictLookup_eq_none_of_not_mem (d : PyDict) (k : String)
    (h : k ∉ d.map Prod.fst) : dictLookup d k = none := by
  induction d with
  | nil => rfl
  | cons kv rest ih =>
    simp only [List.map_cons, List.mem_cons] at h
    push_neg at h
    simp only [dictLookup, ih h.2]
    rw [if_neg (Ne.symm h.1)]

theorem dictLookup_filter_dict_default (d : PyDict)
    (hd : (d.map Prod.fst).Nodup) (k : String) :
    dictLookup (filter_dict none d) k =
      match dictLookup d k with
      | some v => if v = PyVal.pynone then none else some v
      | none => none := by
  induction d with
  | nil => rfl
  | cons kv rest ih =>
    simp only [List.map_cons, List.nodup_cons] at hd
    simp only [filter_dict, List.filter_cons] at ih ⊢
    by_cases hv : kv.2 = PyVal.pynone
    · by_cases hk : kv.1 = k
      · subst hk
        have hrest : dictLookup rest kv.1 = none :=
          dictLookup_eq_none_of_not_mem rest kv.1 hd.1
        simp [hv, dictLookup, ih hd.2, hrest]
      · simp [hv, dictLookup, hk, ih hd.2]
    · by_cases hk : kv.1 = k
      · subst hk
        simp [hv, dictLookup]
      · simp [hv, dictLookup, hk, ih hd.2]

/-- C7: merging caller overrides into the derived parameters with
`params.update(filter_dict(None, additional_params))` maps a key to the
override value exactly when that override value is not `None`, and to the
derived value otherwise; an absent (`None`) override never replaces a
derived value. The override dictionary is key-unique, as every Python
dictionary is. -/
theorem merged_params_override (derived overrides : PyDict) (k : String)
    (h : (overrides.map Prod.fst).Nodup) :
    dictLookup (dictUpdate derived (filter_dict none overrides)) k =
      match dictLookup overrides k with
      | some v => if v = PyVal.pynone then dictLookup derived k else some v
      | none => dictLookup derived k := by
  rw [dictLookup_dictUpdate, dictLookup_filter_dict_default overrides h k]
  cases ho : dictLookup overrides k with
  | none => simp
  | some v =>
    by_cases hv : v = PyVal.pynone
    · simp [hv]
    · simp [hv]

/-- Closed instance of `merged_params_override`: a `None` override is
dropped while a real override wins. -/
theorem merged_params_override_witness :
    dictLookup (dictUpdate
        [("project_name", PyVal.str (chars "Demo")), ("title", PyVal.str (chars "T"))]
        (filter_dict none
          [("project_name", PyVal.pynone), ("title", PyVal.str (chars "Override"))]))
        "project_name" =
      some (PyVal.str (chars "Demo"))
    ∧ dictLookup (dictUpdate
        [("project_name", PyVal.str (chars "Demo")), ("title", PyVal.str (chars "T"))]
        (filter_dict none
          [("project_name", PyVal.pynone), ("title", PyVal.str (chars "Override"))]))
        "title" =
      some (PyVal.str (chars "Override")) := by
  constructor
  · rw [merged_params_override _ _ "project_name" (by decide)]
    decide
  · rw [merged_params_override _ _ "title" (by decide)]
    decide

/-- C8: `one_of` scans its candidate list in order and returns the first
candidate satisfying the predicate, `none` when no candidate does; in
particular `find_sphinx_dir` returns `doc` when the existence predicate
holds for both `doc` and `docs`, honouring the list order. -/
theorem one_of_first_match :
    (∀ (α : Type) (pre post : List α) (x : α) (p : α → Bool),
        (∀ y ∈ pre, p y = false) → p x = true →
        one_of (pre ++ x :: post) p = some x)
    ∧ (∀ (α : Type) (l : List α) (p : α → Bool),
        (∀ y ∈ l, p y = false) → one_of l p = none)
    ∧ (∀ isdir : List Char → Bool,
        isdir (chars "doc") = true → isdir (chars "docs") = true →
        find_sphinx_dir isdir = some (chars "doc")) := by
  refine ⟨?_, ?_, ?_⟩
  · intro α pre post x p hpre hx
    induction pre with
    | nil => simp [one_of, hx]
    | cons a as ih =>
      simp only [List.cons_append, one_of, hpre a (List.mem_cons_self a as),
        Bool.false_eq_true, if_false]
      exact ih (fun y hy => hpre y (List.mem_cons_of_mem a hy))
  · intro α l p hl
    induction l with
    | nil => rfl
    | cons a as ih =>
      simp only [one_of, hl a (List.mem_cons_self a as), Bool.false_eq_true, if_false]
      exact ih (fun y hy => hl y (List.mem_cons_of_mem a hy))
  · intro isdir h1 _
    unfold find_sphinx_dir one_of
    rw [h1]
    simp

/-- Closed instance of `one_of_first_match`: with both directories
present, `doc` wins; with none of the candidates matching, the result is
absent. -/
theorem one_of_first_match_witness :
    find_sphinx_dir (fun _ => true) = some (chars "doc") ∧
      one_of [1, 2, 3] (fun _ => false) = (none : Option Nat) :=
  ⟨one_of_first_match.2.2 (fun _ => true) rfl rfl,
   one_of_first_match.2.1 Nat [1, 2, 3] (fun _ => false) (by decide)⟩

/-- C9: a successful run overwrites the Makefile with the patched line
list and appends the rendered configuration block verbatim after the
existing `conf.py` content, which is preserved byte for byte; nothing else
in the state changes. -/
theorem sphinx_add_texinfo_success (fs : FS) (add : PyDict) (out : FS)
    (h : sphinx_add_texinfo fs add = (out, none)) :
    ∃ builddir makefile_lines params conf_addition,
      get_makefile_builddir fs.makefile fs.fsFallback = some builddir ∧
      modify_makefile_lines fs.makefile builddir = .ok makefile_lines ∧
      mergedParams fs add = .ok params ∧
      callConfPy params = .ok conf_addition ∧
      out = { fs with
              makefile := makefile_lines
              conf_py := fs.conf_py ++ conf_addition } := by
  unfold sphinx_add_texinfo at h
  cases hb : get_makefile_builddir fs.makefile fs.fsFallback with
  | none =>
    rw [hb] at h
    simp at h
  | some builddir =>
    rw [hb] at h
    dsimp only at h
    cases hm : modify_makefile_lines fs.makefile builddir with
    | error e =>
      rw [hm] at h
      simp at h
    | ok makefile_lines =>
      rw [hm] at h
      dsimp only at h
      cases hp : mergedParams fs add with
      | error e =>
        rw [hp] at h
        simp at h
      | ok params =>
        rw [hp] at h
        dsimp only at h
        cases hc : callConfPy params with
        | error e =>
          rw [hc] at h
          simp at h
        | ok conf_addition =>
          rw [hc] at h
          dsimp only at h
          rw [Prod.mk.injEq] at h
          exact ⟨builddir, makefile_lines, params, conf_addition,
            rfl, hm, rfl, hc, h.1.symm⟩

/-- Closed instance of `sphinx_add_texinfo_success` on `sampleProject`. -/
theorem sphinx_add_texinfo_success_witness :
    ∃ builddir makefile_lines params conf_addition,
      get_makefile_builddir sampleProject.makefile sampleProject.fsFallback = some builddir ∧
      modify_makefile_lines sampleProject.makefile builddir = .ok makefile_lines ∧
      mergedParams sampleProject [] = .ok params ∧
      callConfPy params = .ok conf_addition ∧
      (sphinx_add_texinfo sampleProject []).1 =
        { sampleProject with
          makefile := makefile_lines
          conf_py := sampleProject.conf_py ++ conf_addition } :=
  sphinx_add_texinfo_success sampleProject [] (sphinx_add_texinfo sampleProject []).1
    (by rfl)

theorem dictLookup_filter_dict_keeps (d : PyDict) (k : String) (v : PyVal)
    (h : dictLookup d k = some v) (hv : v ≠ PyVal.pynone) :
    dictLookup (filter_dict none d) k = some v := by
  induction d with
  | nil => simp [dictLookup] at h
  | cons kv rest ih =>
    simp only [filter_dict, List.filter_cons] at ih ⊢
    by_cases hk : kv.1 = k
    · simp only [dictLookup, if_pos hk] at h
      injection h with h
      subst h
      have hkeep : (!(kv.2 == PyVal.pynone)) = true := by
        simp only [Bool.not_eq_true', beq_eq_false_iff_ne]
        exact hv
      rw [if_pos hkeep]
      simp [dictLookup, hk]
    · simp only [dictLookup, if_neg hk] at h
      by_cases hkeep : (!(kv.2 == PyVal.pynone)) = true
      · rw [if_pos hkeep]
        simp only [dictLookup, if_neg hk]
        exact ih h
      · rw [if_neg hkeep]
        exact ih h

theorem mem_of_dictLookup (d : PyDict) (k : String) (v : PyVal)
    (h : dictLookup d k = some v) : (k, v) ∈ d := by
  induction d with
  | nil => simp [dictLookup] at h
  | cons kv rest ih =>
    by_cases hk : kv.1 = k
    · simp only [dictLookup, if_pos hk] at h
      injection h with h
      have : (k, v) = kv := by
        cases kv
        simp_all
      rw [this]
      exact List.mem_cons_self _ _
    · simp only [dictLookup, if_neg hk] at h
      exact List.mem_cons_of_mem _ (ih h)

theorem callConfPy_author_typeError (params : PyDict) (v : PyVal)
    (h : dictLookup params "author" = some v) :
    callConfPy params = .error .typeError := by
  unfold callConfPy
  have hauthor : (!(KNOWN_KWARGS.contains "author")) = true := by decide
  have hany : params.any (fun kv => !(KNOWN_KWARGS.contains kv.1)) = true :=
    List.any_eq_true.mpr ⟨("author", v), mem_of_dictLookup params "author" v h, hauthor⟩
  rw [hany]
  simp

/-- C10: whenever the override dictionary carries the key `author` with a
non-`None` value (what the repeatable `--author` flag produces), the run
fails before either file write and leaves the state unchanged: the merged
parameters keep the keyword `author`, which `conf_py_texinfo_documents`
does not accept (its parameter is `authors`), so the call raises
`TypeError` — authors supplied on the command line can never reach the
rendered block. -/
theorem author_override_never_rendered (fs : FS) (add : PyDict) (v : PyVal)
    (hk : dictLookup add "author" = some v) (hv : v ≠ PyVal.pynone) :
    (sphinx_add_texinfo fs add).1 = fs ∧
      ((sphinx_add_texinfo fs add).2).isSome = true := by
  unfold sphinx_add_texinfo
  cases hb : get_makefile_builddir fs.makefile fs.fsFallback with
  | none => exact ⟨rfl, rfl⟩
  | some builddir =>
    dsimp only
    cases hm : modify_makefile_lines fs.makefile builddir with
    | error e => exact ⟨rfl, rfl⟩
    | ok makefile_lines =>
      dsimp only
      unfold mergedParams
      cases hp : params_for_texinfo_documents fs.confBindings with
      | error e => exact ⟨rfl, rfl⟩
      | ok params =>
        dsimp only
        have hmerged :
            dictLookup (dictUpdate params (filter_dict none add)) "author" = some v := by
          rw [dictLookup_dictUpdate,
            dictLookup_filter_dict_keeps add "author" v hk hv]
        rw [callConfPy_author_typeError _ v hmerged]
        exact ⟨rfl, rfl⟩

/-- Closed instance of `author_override_never_rendered` on
`sampleProject` with `--author Alice`. -/
theorem author_override_never_rendered_witness :
    (sphinx_add_texinfo sampleProject [("author", PyVal.strlist [chars "Alice"])]).1 =
        sampleProject ∧
      ((sphinx_add_texinfo sampleProject
        [("author", PyVal.strlist [chars "Alice"])]).2).isSome = true :=
  author_override_never_rendered sampleProject
    [("author", PyVal.strlist [chars "Alice"])]
    (PyVal.strlist [chars "Alice"]) (by decide) (by decide)

end SphinxAddTexinfo
